import Mathlib

/-!
Verification of the input interception core of `examples/cerberus/input.cpp`
(hadesmem).  The C++ file keeps process-wide interception state (visibility
flag, saved cursor, saved cursor position, saved clip rectangle, saved
raw-input device list, show count, deferred window-proc message queue) and a
family of hook callbacks.  We embed that state as an explicit `Sys` record
(including the ambient OS input state the code reads and writes through
Win32 calls) and each C++ function as a pure state transformer.  The two
while loops (`ShowCursor`/`HideCursor`) are embedded with explicit fuel that
is large enough for the loop to run to completion, so that every definition
stays executable.
-/

namespace Cerberus

/-- Cursor position record (POINT in the source). -/
structure Point where
  x : Int
  y : Int
deriving Repr, DecidableEq

/-- Screen rectangle (RECT in the source). -/
structure Rect where
  left : Int
  top : Int
  right : Int
  bottom : Int
deriving Repr, DecidableEq

/-- Raw input device registration record (RAWINPUTDEVICE in the source). -/
structure RawInputDevice where
  usUsagePage : Nat
  usUsage : Nat
  dwFlags : Nat
  hwndTarget : Nat
deriving Repr, DecidableEq

/-- Queued window-procedure message (WndProcInputMsg in the source; the
borrowed thread handle opened in its constructor plays no role in the queue
discipline and is elided). -/
structure WndProcInputMsg where
  hwnd : Nat
  msg : Nat
  wparam : Nat
  lparam : Nat
  tid : Nat
deriving Repr, DecidableEq

/-- Ambient OS input state read and written by the Win32 calls the code
makes (GetCursorPos, SetCursor, ShowCursor, GetClipCursor, ClipCursor,
GetRegisteredRawInputDevices, RegisterRawInputDevices, GetWindowRect,
IsWindow, GetAsyncKeyState).  The environment is assumed deterministic and
the calls succeed; the source throws on failure, a path no claim exercises. -/
structure OsState where
  cursorPos : Point
  clipCursor : Rect
  displayCount : Int
  cursor : Nat
  registeredDevices : List RawInputDevice
  currentWindow : Nat
  windowValid : Bool
  windowRect : Rect
  shiftHeld : Bool
deriving Repr, DecidableEq

/-- Process-wide interception state of input.cpp (the statics behind
GetShowCursorCount, GetOldCursor, GetOldCursorPos, GetOldClipCursor,
GetOldRawInputDevices, GetWndProcInputMsgQueue and the render module's
visibility flag) together with the ambient OS state. -/
structure Sys where
  guiVisible : Bool
  showCursorCount : Int
  oldCursor : Bool × Nat
  oldCursorPos : Bool × Point
  oldClipCursor : Rect
  oldRawInputDevices : List RawInputDevice
  queue : List WndProcInputMsg
  os : OsState
deriving Repr, DecidableEq

/-- Handle of the standard arrow cursor loaded by LoadCursorW(nullptr, IDC_ARROW). -/
def arrowCursor : Nat := 32512

/-- HID usage page constant HADESMEM_DETAIL_HID_USAGE_PAGE_GENERIC. -/
def hidUsagePageGeneric : Nat := 1

/-- HID usage constant HADESMEM_DETAIL_HID_USAGE_GENERIC_MOUSE. -/
def hidUsageGenericMouse : Nat := 2

/-- HID usage constant HADESMEM_DETAIL_HID_USAGE_GENERIC_KEYBOARD. -/
def hidUsageGenericKeyboard : Nat := 6

/-- Window message constant WM_KEYDOWN. -/
def WM_KEYDOWN : Nat := 0x0100

/-- Window message constant WM_INPUT. -/
def WM_INPUT : Nat := 0x00FF

/-- Window message constant WM_KEYFIRST. -/
def WM_KEYFIRST : Nat := 0x0100

/-- Window message constant WM_KEYLAST. -/
def WM_KEYLAST : Nat := 0x0109

/-- Window message constant WM_MOUSEFIRST. -/
def WM_MOUSEFIRST : Nat := 0x0200

/-- Window message constant WM_MOUSELAST. -/
def WM_MOUSELAST : Nat := 0x020E

/-- Virtual key constant VK_F9. -/
def VK_F9 : Nat := 0x78

/-- Value static_cast<UINT>(-1) returned by the raw-input query hooks. -/
def uintMinus1 : Nat := 4294967295

/-- SetOrRestoreCursor (input.cpp:144).  When showing, sets the arrow cursor
and records the previously active cursor (SetCursor returns the previous
cursor); when hiding with a recorded cursor, sets the recorded cursor back,
again recording the cursor that was displaced; in all cases finally marks
the record valid (`old_cursor.first = true`). -/
def SetOrRestoreCursor (visible : Bool) (s : Sys) : Sys :=
  if visible then
    { s with oldCursor := (true, s.os.cursor),
             os := { s.os with cursor := arrowCursor } }
  else if s.oldCursor.1 then
    { s with oldCursor := (true, s.os.cursor),
             os := { s.os with cursor := s.oldCursor.2 } }
  else
    { s with oldCursor := (true, s.oldCursor.2) }

/-- SaveCurrentCursorPos (input.cpp:174): query the real cursor position
(hook disabled) and store it with the saved flag set. -/
def SaveCurrentCursorPos (s : Sys) : Sys :=
  { s with oldCursorPos := (true, s.os.cursorPos) }

/-- ClearOldCursorPos (input.cpp:194): clear the saved flag and zero the
stored point. -/
def ClearOldCursorPos (s : Sys) : Sys :=
  { s with oldCursorPos := (false, ⟨0, 0⟩) }

/-- RestoreOldCursorPos (input.cpp:201): if no position was saved, do
nothing; otherwise set the real cursor position to the saved one (hook
disabled) and clear the record. -/
def RestoreOldCursorPos (s : Sys) : Sys :=
  if s.oldCursorPos.1 then
    ClearOldCursorPos { s with os := { s.os with cursorPos := s.oldCursorPos.2 } }
  else s

/-- One iteration body plus exit test of the do/while loop in ShowCursor
(input.cpp:224) acting on (internal show count, OS display count): the body
increments the internal count, the OS call ShowCursor(TRUE) increments the
display count and returns it, and the loop continues while that result is
negative.  Fuel bounds the iteration count; `ShowCursor` below supplies
enough fuel for the loop to run until its real exit condition. -/
def showCursorLoopGo : Nat → Int × Int → Int × Int
  | 0, p => p
  | fuel + 1, (c, d) =>
    if d + 1 < 0 then showCursorLoopGo fuel (c + 1, d + 1) else (c + 1, d + 1)

/-- ShowCursor (input.cpp:224): repeatedly increment the internal show
count and call the real ShowCursor(TRUE) (hook disabled) until the OS
reports a non-negative display count.  One plus the magnitude of a negative
display count is enough fuel for the do/while loop to reach its exit test. -/
def ShowCursor (s : Sys) : Sys :=
  let p := showCursorLoopGo (1 + (-s.os.displayCount).toNat)
    (s.showCursorCount, s.os.displayCount)
  { s with showCursorCount := p.1,
           os := { s.os with displayCount := p.2 } }

/-- One iteration of the while loop in HideCursor (input.cpp:237) acting on
(internal show count, OS display count): while the internal count is
positive, decrement it and call the real ShowCursor(FALSE) (which
decrements the display count). -/
def hideCursorLoopGo : Nat → Int × Int → Int × Int
  | 0, p => p
  | fuel + 1, (c, d) =>
    if 0 < c then hideCursorLoopGo fuel (c - 1, d - 1) else (c, d)

/-- HideCursor (input.cpp:237): drain the internal show count to zero,
hiding the cursor once per decrement.  The loop runs exactly
`showCursorCount.toNat` times, which is the fuel supplied. -/
def HideCursor (s : Sys) : Sys :=
  let p := hideCursorLoopGo s.showCursorCount.toNat
    (s.showCursorCount, s.os.displayCount)
  { s with showCursorCount := p.1,
           os := { s.os with displayCount := p.2 } }

/-- SaveCurrentClipCursor (input.cpp:251): query the real clip rectangle
(hook disabled) and store it. -/
def SaveCurrentClipCursor (s : Sys) : Sys :=
  { s with oldClipCursor := s.os.clipCursor }

/-- ClipCursorWrap (input.cpp:276): apply a clip rectangle through the real
ClipCursor (hook disabled). -/
def ClipCursorWrap (r : Rect) (s : Sys) : Sys :=
  { s with os := { s.os with clipCursor := r } }

/-- Componentwise union rectangle computed by SetNewClipCursor
(input.cpp:310): min of lefts/tops, max of rights/bottoms. -/
def rectUnion (a b : Rect) : Rect :=
  ⟨min a.left b.left, min a.top b.top, max a.right b.right, max a.bottom b.bottom⟩

/-- SetNewClipCursor (input.cpp:290): if the current window is invalid,
log and return; otherwise clip to the union of the saved clip rectangle
and the window's bounding rectangle. -/
def SetNewClipCursor (s : Sys) : Sys :=
  if s.os.windowValid then
    ClipCursorWrap (rectUnion s.oldClipCursor s.os.windowRect) s
  else s

/-- RestoreOldClipCursor (input.cpp:327): reapply the saved clip rectangle. -/
def RestoreOldClipCursor (s : Sys) : Sys :=
  ClipCursorWrap s.oldClipCursor s

/-- OS semantics of RegisterRawInputDevices for one device record with
default flags: a registration for the same (usage page, usage) pair is
replaced, otherwise the record is appended.  This models the platform, not
repository code. -/
def registerRawInputDeviceOs (devs : List RawInputDevice) (d : RawInputDevice) :
    List RawInputDevice :=
  if devs.any (fun e => e.usUsagePage == d.usUsagePage && e.usUsage == d.usUsage) then
    devs.map (fun e =>
      if e.usUsagePage == d.usUsagePage && e.usUsage == d.usUsage then d else e)
  else devs ++ [d]

/-- Fresh registration built by SetRawInputDevices (input.cpp:701, 712):
generic usage page, the given usage, zero flags, targeting the current
window. -/
def newOverlayDevice (usage hwnd : Nat) : RawInputDevice :=
  ⟨hidUsagePageGeneric, usage, 0, hwnd⟩

/-- Mouse test used by DoesRawInputDeviceHaveMouseOrKeyboardDevice
(input.cpp:630) and RestoreRawInputDevices (input.cpp:732). -/
def isMouseDevice (d : RawInputDevice) : Bool :=
  d.usUsagePage == hidUsagePageGeneric && d.usUsage == hidUsageGenericMouse

/-- Keyboard test used by DoesRawInputDeviceHaveMouseOrKeyboardDevice
(input.cpp:640) and RestoreRawInputDevices (input.cpp:738). -/
def isKeyboardDevice (d : RawInputDevice) : Bool :=
  d.usUsagePage == hidUsagePageGeneric && d.usUsage == hidUsageGenericKeyboard

/-- SetRawInputDevices (input.cpp:651).  Queries the registered raw-input
devices; when none are registered it logs and returns WITHOUT touching the
stored snapshot.  Otherwise the snapshot is replaced with the query result;
then, when a generic mouse or keyboard registration is present, a fresh
registration targeting the current window is installed for that class. -/
def SetRawInputDevices (s : Sys) : Sys :=
  let devices := s.os.registeredDevices
  if devices.isEmpty then s
  else
    let s1 : Sys := { s with oldRawInputDevices := devices }
    let hasMouse := devices.any isMouseDevice
    let hasKeyboard := devices.any isKeyboardDevice
    if !hasMouse && !hasKeyboard then s1
    else
      let s2 : Sys :=
        if hasMouse then
          let devs2 := registerRawInputDeviceOs s1.os.registeredDevices
            (newOverlayDevice hidUsageGenericMouse s1.os.currentWindow)
          { s1 with os := { s1.os with registeredDevices := devs2 } }
        else s1
      if hasKeyboard then
        let devs3 := registerRawInputDeviceOs s2.os.registeredDevices
          (newOverlayDevice hidUsageGenericKeyboard s2.os.currentWindow)
        { s2 with os := { s2.os with registeredDevices := devs3 } }
      else s2

/-- Effect on the OS registration list of the restore loop in
RestoreRawInputDevices (input.cpp:728): each snapshot entry that is a
generic mouse or keyboard registration is re-registered; any other entry is
logged and skipped. -/
def restoreDevsList (old devs : List RawInputDevice) : List RawInputDevice :=
  old.foldl
    (fun acc d =>
      if isMouseDevice d then registerRawInputDeviceOs acc d
      else if isKeyboardDevice d then registerRawInputDeviceOs acc d
      else acc)
    devs

/-- RestoreRawInputDevices (input.cpp:720): walk the stored snapshot,
re-registering recognised mouse/keyboard entries and skipping the rest.
The snapshot itself is not modified. -/
def RestoreRawInputDevices (s : Sys) : Sys :=
  let devs := restoreDevsList s.oldRawInputDevices s.os.registeredDevices
  { s with os := { s.os with registeredDevices := devs } }

/-- SetGuiVisibleForInput (input.cpp:756): the visibility transition.  On a
real transition, first switch the cursor, then on turn-on save cursor
position, run the show loop, save the clip rectangle, widen the clip to the
window union, and redirect raw-input devices; on turn-off restore the saved
cursor position, run the hide loop, reapply the saved clip rectangle, and
re-register the snapshotted devices.  On a no-transition call, clear the
saved cursor position, and when visible recompute the clip union. -/
def SetGuiVisibleForInput (visible oldVisible : Bool) (s : Sys) : Sys :=
  if visible ≠ oldVisible then
    let s1 := SetOrRestoreCursor visible s
    if visible then
      SetRawInputDevices (SetNewClipCursor (SaveCurrentClipCursor
        (ShowCursor (SaveCurrentCursorPos s1))))
    else
      RestoreRawInputDevices (RestoreOldClipCursor
        (HideCursor (RestoreOldCursorPos s1)))
  else
    let s1 := ClearOldCursorPos s
    if visible then SetNewClipCursor s1 else s1

/-- Modelled from the spec: SetGuiVisible lives in the render module, which
is not under src/; per spec section 6, SetOverlayVisible(visible,
previousVisible) is the single mode-transition entry point, storing the
process-wide visibility flag and driving the section 4.4 transition, which
src does provide as SetGuiVisibleForInput. -/
def SetGuiVisible (visible oldVisible : Bool) (s : Sys) : Sys :=
  SetGuiVisibleForInput visible oldVisible { s with guiVisible := visible }

/-- ToggleGuiVisible (input.cpp:341): flip the visibility flag, passing the
new value and its negation (the current value) to SetGuiVisible. -/
def ToggleGuiVisible (s : Sys) : Sys :=
  let visible := !s.guiVisible
  SetGuiVisible visible (!visible) s

/-- Blocked-message predicate of WindowProcCallback (input.cpp:368):
WM_INPUT, any keyboard message, or any mouse message. -/
def isBlockedMsg (msg : Nat) : Bool :=
  msg == WM_INPUT || (decide (WM_KEYFIRST ≤ msg) && decide (msg ≤ WM_KEYLAST)) ||
    (decide (WM_MOUSEFIRST ≤ msg) && decide (msg ≤ WM_MOUSELAST))

/-- Hotkey predicate of WindowProcCallback (input.cpp:359): WM_KEYDOWN with
the auto-repeat bit (bit 30 of lparam) clear, virtual key F9, and the shift
key held (GetAsyncKeyState high bit). -/
def isHotkey (msg wparam lparam : Nat) (shiftHeld : Bool) : Bool :=
  msg == WM_KEYDOWN && ((lparam >>> 30) &&& 1 == 0) && wparam == VK_F9 && shiftHeld

/-- WindowProcCallback (input.cpp:348): always enqueue the message first;
then, if it is the toggle hotkey, toggle visibility and mark handled; else
if the overlay is visible and the message is an input message, mark handled
(blocking it from the host). -/
def WindowProcCallback (hwnd msg wparam lparam tid : Nat) (s : Sys) : Sys × Bool :=
  let s1 : Sys := { s with queue := s.queue ++ [⟨hwnd, msg, wparam, lparam, tid⟩] }
  if isHotkey msg wparam lparam s.os.shiftHeld then
    (ToggleGuiVisible s1, true)
  else if s1.guiVisible && isBlockedMsg msg then
    (s1, true)
  else (s1, false)

/-- OnSetCursor (input.cpp:378): always record (true, new cursor), keeping
the displaced value; when the overlay is visible, additionally report
handled with the previously recorded cursor as return value.  Result:
(state, handled, retval), where retval stays untouched (none) unless
written. -/
def OnSetCursor (cursor : Nat) (s : Sys) : Sys × Bool × Option Nat :=
  let oldRaw := s.oldCursor.2
  let s1 : Sys := { s with oldCursor := (true, cursor) }
  if s1.guiVisible then (s1, true, some oldRaw) else (s1, false, none)

/-- OnDirectInput (input.cpp:394): mark handled while the overlay is
visible. -/
def OnDirectInput (s : Sys) : Bool :=
  s.guiVisible

/-- OnGetCursorPos (input.cpp:402): while visible and given a non-null
point, overwrite the point with the saved cursor position and report
handled; otherwise leave the caller's point untouched. -/
def OnGetCursorPos (point : Option Point) (s : Sys) : Option Point × Bool :=
  if s.guiVisible && point.isSome then
    (some s.oldCursorPos.2, true)
  else (point, false)

/-- OnSetCursorPos (input.cpp:414): while visible, record the requested
position as the saved position and report handled. -/
def OnSetCursorPos (x y : Int) (s : Sys) : Sys × Bool :=
  if s.guiVisible then
    ({ s with oldCursorPos := (true, ⟨x, y⟩) }, true)
  else (s, false)

/-- OnShowCursor (input.cpp:427): while visible, increment or decrement the
internal show count (unconditionally) and return the new count. -/
def OnShowCursor (bShow : Bool) (s : Sys) : Sys × Bool × Option Int :=
  if s.guiVisible then
    let c := if bShow then s.showCursorCount + 1 else s.showCursorCount - 1
    ({ s with showCursorCount := c }, true, some c)
  else (s, false, none)

/-- OnClipCursor (input.cpp:448): while visible and given a rectangle,
store it as the saved clip rectangle and report handled with TRUE. -/
def OnClipCursor (rect : Option Rect) (s : Sys) : Sys × Bool × Option Bool :=
  match rect with
  | some r => if s.guiVisible then ({ s with oldClipCursor := r }, true, some true)
              else (s, false, none)
  | none => (s, false, none)

/-- OnGetClipCursor (input.cpp:461): while visible and given a rectangle,
return the saved clip rectangle and report handled with TRUE. -/
def OnGetClipCursor (rect : Option Rect) (s : Sys) : Option Rect × Bool × Option Bool :=
  match rect with
  | some r => if s.guiVisible then (some s.oldClipCursor, true, some true)
              else (some r, false, none)
  | none => (none, false, none)

/-- OnGetRawInputBuffer (input.cpp:474): while visible, report handled with
(UINT)-1; the data and size parameters are ignored, so the caller's buffer
is left untouched. -/
def OnGetRawInputBuffer (data : Option (List Nat)) (_size : Option Nat) (s : Sys) :
    Option (List Nat) × Bool × Option Nat :=
  if s.guiVisible then (data, true, some uintMinus1) else (data, false, none)

/-- ZeroMemory(data, n): the first n bytes of the buffer become zero. -/
def ZeroMemory (buf : List Nat) (n : Nat) : List Nat :=
  (buf.take n).map (fun _ => 0) ++ buf.drop n

/-- OnGetRawInputData (input.cpp:490): while visible and given both a data
buffer and a size, zero the buffer and report handled with (UINT)-1. -/
def OnGetRawInputData (data : Option (List Nat)) (size : Option Nat) (s : Sys) :
    Option (List Nat) × Bool × Option Nat :=
  match data, size with
  | some buf, some n =>
    if s.guiVisible then (some (ZeroMemory buf n), true, some uintMinus1)
    else (some buf, false, none)
  | _, _ => (data, false, none)

/-- OnRegisterRawInputDevices (input.cpp:506): a null device array returns
untouched; otherwise each device is logged (no state effect), and while
visible the call is suppressed: handled with return value FALSE. -/
def OnRegisterRawInputDevices (devices : Option (List RawInputDevice)) (s : Sys) :
    Bool × Option Bool :=
  match devices with
  | none => (false, none)
  | some _ => if s.guiVisible then (true, some false) else (false, none)

/-- Per-subscriber delivery record produced by broadcasting one queue entry:
subscriber id plus the (window, message, wparam, lparam) tuple the entry was
pushed with. -/
structure InputEvent where
  sub : Nat
  hwnd : Nat
  msg : Nat
  wparam : Nat
  lparam : Nat
deriving Repr, DecidableEq

/-- Modelled from the spec: the callback registry (callbacks.hpp, not under
src/) broadcasts by invoking every currently registered subscriber in
registration order, synchronously, with the given arguments (spec section
4.1).  Here the trace of one broadcast of a queue entry. -/
def broadcastRun (subs : List Nat) (m : WndProcInputMsg) : List InputEvent :=
  subs.map (fun i => ⟨i, m.hwnd, m.msg, m.wparam, m.lparam⟩)

/-- Order-preserving concatenation of the images of a list's elements. -/
def concatMapList (g : α → List β) : List α → List β
  | [] => []
  | a :: l => g a ++ concatMapList g l

/-- HandleInputQueue (input.cpp:796), with the subscriber side made
explicit.  While the queue is not empty: take the front entry, attach to
its thread (modelled separately by LazyAttachThreadInput, which does not
touch the queue), broadcast it to every subscriber, then pop it.  A
subscriber callback may push entries during the broadcast; `f m` gives the
entries pushed while processing `m`, which land behind the current tail.
The fuel argument bounds the number of iterations of the while loop; `none`
means the loop was still running when the fuel ran out. -/
def HandleInputQueueGo (f : WndProcInputMsg → List WndProcInputMsg)
    (subs : List Nat) : Nat → List WndProcInputMsg → Option (List InputEvent)
  | _, [] => some []
  | 0, _ :: _ => none
  | fuel + 1, m :: rest =>
    match HandleInputQueueGo f subs fuel (rest ++ f m) with
    | some evs => some (broadcastRun subs m ++ evs)
    | none => none

/-- Thread-local attachment record of LazyAttachThreadInput (input.cpp:551):
the last attached thread id (0 meaning none) and the open handle kept for
it. -/
structure AttachState where
  lastAttachedTid : Nat
  lastAttachedThread : Option Nat
deriving Repr, DecidableEq

/-- OS-level thread actions performed by LazyAttachThreadInput, in order:
AttachThreadInput(src, tgt, attach), CloseHandle(h), OpenThread(tid). -/
inductive ThreadAction where
  | attachInput (src tgt : Nat) (attach : Bool)
  | closeHandle (h : Nat)
  | openThread (tid : Nat)
deriving Repr, DecidableEq

/-- LazyAttachThreadInput (input.cpp:549).  The attachment record is
thread-local, modelled as a map from calling-thread id to record.  When the
target differs from both the calling thread and the last attached thread:
first detach from (and close the handle of) any previous attachment, then
attach to the target and open a handle to it (`newHandle` is the handle the
OS returns).  Otherwise nothing happens.  Returns the updated map and the
ordered OS action trace. -/
def LazyAttachThreadInput (currentTid tid newHandle : Nat)
    (tls : Nat → AttachState) : (Nat → AttachState) × List ThreadAction :=
  let st := tls currentTid
  if currentTid ≠ tid ∧ st.lastAttachedTid ≠ tid then
    let detachActs :=
      if st.lastAttachedTid ≠ 0 then
        [ThreadAction.attachInput currentTid st.lastAttachedTid false] ++
          (match st.lastAttachedThread with
           | some h => [ThreadAction.closeHandle h]
           | none => [])
      else []
    (fun t => if t = currentTid then ⟨tid, some newHandle⟩ else tls t,
     detachActs ++ [ThreadAction.attachInput currentTid tid true,
                    ThreadAction.openThread tid])
  else (tls, [])

/-- A concrete quiescent starting state: overlay hidden, nothing saved,
cursor at the origin, shift held (so the hotkey test can fire). -/
def exSys0 : Sys :=
  { guiVisible := false
    showCursorCount := 0
    oldCursor := (false, 0)
    oldCursorPos := (false, ⟨0, 0⟩)
    oldClipCursor := ⟨0, 0, 0, 0⟩
    oldRawInputDevices := []
    queue := []
    os := { cursorPos := ⟨0, 0⟩
            clipCursor := ⟨0, 0, 0, 0⟩
            displayCount := 0
            cursor := 0
            registeredDevices := []
            currentWindow := 0
            windowValid := false
            windowRect := ⟨0, 0, 0, 0⟩
            shiftHeld := true } }

/-- A concrete state with the overlay visible, a saved cursor position, and
a stale raw-input snapshot while the OS has zero registered devices. -/
def exVis : Sys :=
  { guiVisible := true
    showCursorCount := 0
    oldCursor := (true, 3)
    oldCursorPos := (true, ⟨3, 4⟩)
    oldClipCursor := ⟨0, 0, 10, 10⟩
    oldRawInputDevices := [⟨1, 2, 0, 0⟩]
    queue := []
    os := { cursorPos := ⟨7, 8⟩
            clipCursor := ⟨0, 0, 10, 10⟩
            displayCount := 0
            cursor := 5
            registeredDevices := []
            currentWindow := 0
            windowValid := false
            windowRect := ⟨0, 0, 0, 0⟩
            shiftHeld := false } }

@[simp] theorem SetOrRestoreCursor_guiVisible (v : Bool) (s : Sys) :
    (SetOrRestoreCursor v s).guiVisible = s.guiVisible := by
  unfold SetOrRestoreCursor; split_ifs <;> rfl

@[simp] theorem SetOrRestoreCursor_showCursorCount (v : Bool) (s : Sys) :
    (SetOrRestoreCursor v s).showCursorCount = s.showCursorCount := by
  unfold SetOrRestoreCursor; split_ifs <;> rfl

@[simp] theorem SetOrRestoreCursor_oldCursorPos (v : Bool) (s : Sys) :
    (SetOrRestoreCursor v s).oldCursorPos = s.oldCursorPos := by
  unfold SetOrRestoreCursor; split_ifs <;> rfl

@[simp] theorem SetOrRestoreCursor_oldClipCursor (v : Bool) (s : Sys) :
    (SetOrRestoreCursor v s).oldClipCursor = s.oldClipCursor := by
  unfold SetOrRestoreCursor; split_ifs <;> rfl

@[simp] theorem SetOrRestoreCursor_oldRawInputDevices (v : Bool) (s : Sys) :
    (SetOrRestoreCursor v s).oldRawInputDevices = s.oldRawInputDevices := by
  unfold SetOrRestoreCursor; split_ifs <;> rfl

@[simp] theorem SetOrRestoreCursor_queue (v : Bool) (s : Sys) :
    (SetOrRestoreCursor v s).queue = s.queue := by
  unfold SetOrRestoreCursor; split_ifs <;> rfl

@[simp] theorem SetOrRestoreCursor_os_cursorPos (v : Bool) (s : Sys) :
    (SetOrRestoreCursor v s).os.cursorPos = s.os.cursorPos := by
  unfold SetOrRestoreCursor; split_ifs <;> rfl

@[simp] theorem SetOrRestoreCursor_os_clipCursor (v : Bool) (s : Sys) :
    (SetOrRestoreCursor v s).os.clipCursor = s.os.clipCursor := by
  unfold SetOrRestoreCursor; split_ifs <;> rfl

@[simp] theorem SetOrRestoreCursor_os_displayCount (v : Bool) (s : Sys) :
    (SetOrRestoreCursor v s).os.displayCount = s.os.displayCount := by
  unfold SetOrRestoreCursor; split_ifs <;> rfl

@[simp] theorem SetOrRestoreCursor_os_windowValid (v : Bool) (s : Sys) :
    (SetOrRestoreCursor v s).os.windowValid = s.os.windowValid := by
  unfold SetOrRestoreCursor; split_ifs <;> rfl

@[simp] theorem SetOrRestoreCursor_os_windowRect (v : Bool) (s : Sys) :
    (SetOrRestoreCursor v s).os.windowRect = s.os.windowRect := by
  unfold SetOrRestoreCursor; split_ifs <;> rfl

@[simp] theorem SetOrRestoreCursor_os_registeredDevices (v : Bool) (s : Sys) :
    (SetOrRestoreCursor v s).os.registeredDevices = s.os.registeredDevices := by
  unfold SetOrRestoreCursor; split_ifs <;> rfl

@[simp] theorem SetOrRestoreCursor_os_currentWindow (v : Bool) (s : Sys) :
    (SetOrRestoreCursor v s).os.currentWindow = s.os.currentWindow := by
  unfold SetOrRestoreCursor; split_ifs <;> rfl

theorem SetOrRestoreCursor_hide_os_cursor (s : Sys) :
    (SetOrRestoreCursor false s).os.cursor =
      if s.oldCursor.1 then s.oldCursor.2 else s.os.cursor := by
  unfold SetOrRestoreCursor; split_ifs <;> simp_all

@[simp] theorem RestoreOldCursorPos_guiVisible (s : Sys) :
    (RestoreOldCursorPos s).guiVisible = s.guiVisible := by
  unfold RestoreOldCursorPos ClearOldCursorPos; split_ifs <;> rfl

@[simp] theorem RestoreOldCursorPos_showCursorCount (s : Sys) :
    (RestoreOldCursorPos s).showCursorCount = s.showCursorCount := by
  unfold RestoreOldCursorPos ClearOldCursorPos; split_ifs <;> rfl

@[simp] theorem RestoreOldCursorPos_oldClipCursor (s : Sys) :
    (RestoreOldCursorPos s).oldClipCursor = s.oldClipCursor := by
  unfold RestoreOldCursorPos ClearOldCursorPos; split_ifs <;> rfl

@[simp] theorem RestoreOldCursorPos_oldRawInputDevices (s : Sys) :
    (RestoreOldCursorPos s).oldRawInputDevices = s.oldRawInputDevices := by
  unfold RestoreOldCursorPos ClearOldCursorPos; split_ifs <;> rfl

@[simp] theorem RestoreOldCursorPos_queue (s : Sys) :
    (RestoreOldCursorPos s).queue = s.queue := by
  unfold RestoreOldCursorPos ClearOldCursorPos; split_ifs <;> rfl

@[simp] theorem RestoreOldCursorPos_os_clipCursor (s : Sys) :
    (RestoreOldCursorPos s).os.clipCursor = s.os.clipCursor := by
  unfold RestoreOldCursorPos ClearOldCursorPos; split_ifs <;> rfl

@[simp] theorem RestoreOldCursorPos_os_cursor (s : Sys) :
    (RestoreOldCursorPos s).os.cursor = s.os.cursor := by
  unfold RestoreOldCursorPos ClearOldCursorPos; split_ifs <;> rfl

@[simp] theorem RestoreOldCursorPos_os_displayCount (s : Sys) :
    (RestoreOldCursorPos s).os.displayCount = s.os.displayCount := by
  unfold RestoreOldCursorPos ClearOldCursorPos; split_ifs <;> rfl

@[simp] theorem RestoreOldCursorPos_os_registeredDevices (s : Sys) :
    (RestoreOldCursorPos s).os.registeredDevices = s.os.registeredDevices := by
  unfold RestoreOldCursorPos ClearOldCursorPos; split_ifs <;> rfl

theorem RestoreOldCursorPos_os_cursorPos (s : Sys) :
    (RestoreOldCursorPos s).os.cursorPos =
      if s.oldCursorPos.1 then s.oldCursorPos.2 else s.os.cursorPos := by
  unfold RestoreOldCursorPos ClearOldCursorPos; split_ifs <;> simp_all

@[simp] theorem SetNewClipCursor_guiVisible (s : Sys) :
    (SetNewClipCursor s).guiVisible = s.guiVisible := by
  unfold SetNewClipCursor ClipCursorWrap; split_ifs <;> rfl

@[simp] theorem SetNewClipCursor_showCursorCount (s : Sys) :
    (SetNewClipCursor s).showCursorCount = s.showCursorCount := by
  unfold SetNewClipCursor ClipCursorWrap; split_ifs <;> rfl

@[simp] theorem SetNewClipCursor_oldCursorPos (s : Sys) :
    (SetNewClipCursor s).oldCursorPos = s.oldCursorPos := by
  unfold SetNewClipCursor ClipCursorWrap; split_ifs <;> rfl

@[simp] theorem SetNewClipCursor_oldClipCursor (s : Sys) :
    (SetNewClipCursor s).oldClipCursor = s.oldClipCursor := by
  unfold SetNewClipCursor ClipCursorWrap; split_ifs <;> rfl

@[simp] theorem SetNewClipCursor_oldRawInputDevices (s : Sys) :
    (SetNewClipCursor s).oldRawInputDevices = s.oldRawInputDevices := by
  unfold SetNewClipCursor ClipCursorWrap; split_ifs <;> rfl

@[simp] theorem SetNewClipCursor_queue (s : Sys) :
    (SetNewClipCursor s).queue = s.queue := by
  unfold SetNewClipCursor ClipCursorWrap; split_ifs <;> rfl

@[simp] theorem SetNewClipCursor_os_cursorPos (s : Sys) :
    (SetNewClipCursor s).os.cursorPos = s.os.cursorPos := by
  unfold SetNewClipCursor ClipCursorWrap; split_ifs <;> rfl

@[simp] theorem SetNewClipCursor_os_cursor (s : Sys) :
    (SetNewClipCursor s).os.cursor = s.os.cursor := by
  unfold SetNewClipCursor ClipCursorWrap; split_ifs <;> rfl

@[simp] theorem SetNewClipCursor_os_displayCount (s : Sys) :
    (SetNewClipCursor s).os.displayCount = s.os.displayCount := by
  unfold SetNewClipCursor ClipCursorWrap; split_ifs <;> rfl

@[simp] theorem SetNewClipCursor_os_registeredDevices (s : Sys) :
    (SetNewClipCursor s).os.registeredDevices = s.os.registeredDevices := by
  unfold SetNewClipCursor ClipCursorWrap; split_ifs <;> rfl

@[simp] theorem SetNewClipCursor_os_currentWindow (s : Sys) :
    (SetNewClipCursor s).os.currentWindow = s.os.currentWindow := by
  unfold SetNewClipCursor ClipCursorWrap; split_ifs <;> rfl

theorem SetNewClipCursor_os_clipCursor (s : Sys) :
    (SetNewClipCursor s).os.clipCursor =
      if s.os.windowValid then rectUnion s.oldClipCursor s.os.windowRect
      else s.os.clipCursor := by
  unfold SetNewClipCursor ClipCursorWrap; split_ifs <;> rfl

@[simp] theorem SetRawInputDevices_guiVisible (s : Sys) :
    (SetRawInputDevices s).guiVisible = s.guiVisible := by
  simp only [SetRawInputDevices]; split_ifs <;> rfl

@[simp] theorem SetRawInputDevices_showCursorCount (s : Sys) :
    (SetRawInputDevices s).showCursorCount = s.showCursorCount := by
  simp only [SetRawInputDevices]; split_ifs <;> rfl

@[simp] theorem SetRawInputDevices_oldCursorPos (s : Sys) :
    (SetRawInputDevices s).oldCursorPos = s.oldCursorPos := by
  simp only [SetRawInputDevices]; split_ifs <;> rfl

@[simp] theorem SetRawInputDevices_oldCursor (s : Sys) :
    (SetRawInputDevices s).oldCursor = s.oldCursor := by
  simp only [SetRawInputDevices]; split_ifs <;> rfl

@[simp] theorem SetRawInputDevices_oldClipCursor (s : Sys) :
    (SetRawInputDevices s).oldClipCursor = s.oldClipCursor := by
  simp only [SetRawInputDevices]; split_ifs <;> rfl

@[simp] theorem SetRawInputDevices_queue (s : Sys) :
    (SetRawInputDevices s).queue = s.queue := by
  simp only [SetRawInputDevices]; split_ifs <;> rfl

@[simp] theorem SetRawInputDevices_os_cursorPos (s : Sys) :
    (SetRawInputDevices s).os.cursorPos = s.os.cursorPos := by
  simp only [SetRawInputDevices]; split_ifs <;> rfl

@[simp] theorem SetRawInputDevices_os_cursor (s : Sys) :
    (SetRawInputDevices s).os.cursor = s.os.cursor := by
  simp only [SetRawInputDevices]; split_ifs <;> rfl

@[simp] theorem SetRawInputDevices_os_clipCursor (s : Sys) :
    (SetRawInputDevices s).os.clipCursor = s.os.clipCursor := by
  simp only [SetRawInputDevices]; split_ifs <;> rfl

@[simp] theorem SetRawInputDevices_os_displayCount (s : Sys) :
    (SetRawInputDevices s).os.displayCount = s.os.displayCount := by
  simp only [SetRawInputDevices]; split_ifs <;> rfl

theorem SetRawInputDevices_snapshot_replaced (s : Sys)
    (h : s.os.registeredDevices ≠ []) :
    (SetRawInputDevices s).oldRawInputDevices = s.os.registeredDevices := by
  simp only [SetRawInputDevices]
  split_ifs <;> simp_all

theorem SetRawInputDevices_snapshot_kept (s : Sys)
    (h : s.os.registeredDevices = []) :
    (SetRawInputDevices s).oldRawInputDevices = s.oldRawInputDevices := by
  simp only [SetRawInputDevices]
  split_ifs <;> simp_all

theorem showCursorLoopGo_fst_ge (n : Nat) (c d : Int) :
    c ≤ (showCursorLoopGo n (c, d)).1 := by
  induction n generalizing c d with
  | zero => simp [showCursorLoopGo]
  | succ n ih =>
    simp only [showCursorLoopGo]
    split
    · exact le_trans (by omega) (ih (c + 1) (d + 1))
    · simp

theorem hideCursorLoopGo_fst_nonneg (n : Nat) (c d : Int) (h : 0 ≤ c) :
    0 ≤ (hideCursorLoopGo n (c, d)).1 := by
  induction n generalizing c d with
  | zero => simpa [hideCursorLoopGo]
  | succ n ih =>
    simp only [hideCursorLoopGo]
    split
    · exact ih (c - 1) (d - 1) (by omega)
    · simpa

@[simp] theorem ShowCursor_guiVisible (s : Sys) :
    (ShowCursor s).guiVisible = s.guiVisible := rfl

@[simp] theorem ShowCursor_oldCursor (s : Sys) :
    (ShowCursor s).oldCursor = s.oldCursor := rfl

@[simp] theorem ShowCursor_oldCursorPos (s : Sys) :
    (ShowCursor s).oldCursorPos = s.oldCursorPos := rfl

@[simp] theorem ShowCursor_oldClipCursor (s : Sys) :
    (ShowCursor s).oldClipCursor = s.oldClipCursor := rfl

@[simp] theorem ShowCursor_oldRawInputDevices (s : Sys) :
    (ShowCursor s).oldRawInputDevices = s.oldRawInputDevices := rfl

@[simp] theorem ShowCursor_queue (s : Sys) :
    (ShowCursor s).queue = s.queue := rfl

@[simp] theorem ShowCursor_os_cursorPos (s : Sys) :
    (ShowCursor s).os.cursorPos = s.os.cursorPos := rfl

@[simp] theorem ShowCursor_os_clipCursor (s : Sys) :
    (ShowCursor s).os.clipCursor = s.os.clipCursor := rfl

@[simp] theorem ShowCursor_os_cursor (s : Sys) :
    (ShowCursor s).os.cursor = s.os.cursor := rfl

@[simp] theorem ShowCursor_os_registeredDevices (s : Sys) :
    (ShowCursor s).os.registeredDevices = s.os.registeredDevices := rfl

@[simp] theorem ShowCursor_os_windowValid (s : Sys) :
    (ShowCursor s).os.windowValid = s.os.windowValid := rfl

@[simp] theorem ShowCursor_os_windowRect (s : Sys) :
    (ShowCursor s).os.windowRect = s.os.windowRect := rfl

@[simp] theorem ShowCursor_os_currentWindow (s : Sys) :
    (ShowCursor s).os.currentWindow = s.os.currentWindow := rfl

theorem ShowCursor_count_ge (s : Sys) :
    s.showCursorCount ≤ (ShowCursor s).showCursorCount :=
  showCursorLoopGo_fst_ge _ _ _

@[simp] theorem HideCursor_guiVisible (s : Sys) :
    (HideCursor s).guiVisible = s.guiVisible := rfl

@[simp] theorem HideCursor_oldCursor (s : Sys) :
    (HideCursor s).oldCursor = s.oldCursor := rfl

@[simp] theorem HideCursor_oldCursorPos (s : Sys) :
    (HideCursor s).oldCursorPos = s.oldCursorPos := rfl

@[simp] theorem HideCursor_oldClipCursor (s : Sys) :
    (HideCursor s).oldClipCursor = s.oldClipCursor := rfl

@[simp] theorem HideCursor_oldRawInputDevices (s : Sys) :
    (HideCursor s).oldRawInputDevices = s.oldRawInputDevices := rfl

@[simp] theorem HideCursor_queue (s : Sys) :
    (HideCursor s).queue = s.queue := rfl

@[simp] theorem HideCursor_os_cursorPos (s : Sys) :
    (HideCursor s).os.cursorPos = s.os.cursorPos := rfl

@[simp] theorem HideCursor_os_clipCursor (s : Sys) :
    (HideCursor s).os.clipCursor = s.os.clipCursor := rfl

@[simp] theorem HideCursor_os_cursor (s : Sys) :
    (HideCursor s).os.cursor = s.os.cursor := rfl

@[simp] theorem HideCursor_os_registeredDevices (s : Sys) :
    (HideCursor s).os.registeredDevices = s.os.registeredDevices := rfl

theorem HideCursor_count_nonneg (s : Sys) (h : 0 ≤ s.showCursorCount) :
    0 ≤ (HideCursor s).showCursorCount :=
  hideCursorLoopGo_fst_nonneg _ _ _ h

theorem ShowCursor_count_nonneg (s : Sys) (h : 0 ≤ s.showCursorCount) :
    0 ≤ (ShowCursor s).showCursorCount := le_trans h (ShowCursor_count_ge s)

theorem SetGuiVisible_guiVisible (v o : Bool) (s : Sys) :
    (SetGuiVisible v o s).guiVisible = v := by
  cases v <;> cases o <;>
    simp [SetGuiVisible, SetGuiVisibleForInput, SaveCurrentCursorPos,
      SaveCurrentClipCursor, ClearOldCursorPos, RestoreOldClipCursor,
      ClipCursorWrap, RestoreRawInputDevices]

theorem SetGuiVisible_queue (v o : Bool) (s : Sys) :
    (SetGuiVisible v o s).queue = s.queue := by
  cases v <;> cases o <;>
    simp [SetGuiVisible, SetGuiVisibleForInput, SaveCurrentCursorPos,
      SaveCurrentClipCursor, ClearOldCursorPos, RestoreOldClipCursor,
      ClipCursorWrap, RestoreRawInputDevices]

theorem SetGuiVisible_on_oldCursorPos (s : Sys) :
    (SetGuiVisible true false s).oldCursorPos = (true, s.os.cursorPos) := by
  simp [SetGuiVisible, SetGuiVisibleForInput, SaveCurrentCursorPos,
    SaveCurrentClipCursor]

theorem SetGuiVisible_on_oldClipCursor (s : Sys) :
    (SetGuiVisible true false s).oldClipCursor = s.os.clipCursor := by
  simp [SetGuiVisible, SetGuiVisibleForInput, SaveCurrentCursorPos,
    SaveCurrentClipCursor]

theorem SetGuiVisible_off_os_clipCursor (s : Sys) :
    (SetGuiVisible false true s).os.clipCursor = s.oldClipCursor := by
  simp [SetGuiVisible, SetGuiVisibleForInput, RestoreOldClipCursor,
    ClipCursorWrap, RestoreRawInputDevices]

theorem SetGuiVisible_off_os_cursor (s : Sys) :
    (SetGuiVisible false true s).os.cursor =
      if s.oldCursor.1 then s.oldCursor.2 else s.os.cursor := by
  simp [SetGuiVisible, SetGuiVisibleForInput, RestoreOldClipCursor,
    ClipCursorWrap, RestoreRawInputDevices, SetOrRestoreCursor_hide_os_cursor]

theorem SetGuiVisible_off_os_cursorPos (s : Sys) :
    (SetGuiVisible false true s).os.cursorPos =
      if s.oldCursorPos.1 then s.oldCursorPos.2 else s.os.cursorPos := by
  simp [SetGuiVisible, SetGuiVisibleForInput, RestoreOldClipCursor,
    ClipCursorWrap, RestoreRawInputDevices, RestoreOldCursorPos_os_cursorPos]

theorem SetGuiVisible_notrans_oldCursorPos (v : Bool) (s : Sys) :
    (SetGuiVisible v v s).oldCursorPos = (false, ⟨0, 0⟩) := by
  cases v <;> simp [SetGuiVisible, SetGuiVisibleForInput, ClearOldCursorPos]

theorem SetGuiVisible_notrans_os_cursorPos (v : Bool) (s : Sys) :
    (SetGuiVisible v v s).os.cursorPos = s.os.cursorPos := by
  cases v <;> simp [SetGuiVisible, SetGuiVisibleForInput, ClearOldCursorPos]

theorem SetGuiVisible_notrans_os_clipCursor (s : Sys) :
    (SetGuiVisible true true s).os.clipCursor =
      if s.os.windowValid then rectUnion s.oldClipCursor s.os.windowRect
      else s.os.clipCursor := by
  simp [SetGuiVisible, SetGuiVisibleForInput, ClearOldCursorPos,
    SetNewClipCursor_os_clipCursor]

theorem SetGuiVisible_count_nonneg (v o : Bool) (s : Sys)
    (h : 0 ≤ s.showCursorCount) : 0 ≤ (SetGuiVisible v o s).showCursorCount := by
  cases v <;> cases o
  · simpa [SetGuiVisible, SetGuiVisibleForInput, ClearOldCursorPos] using h
  · simp only [SetGuiVisible, SetGuiVisibleForInput]
    simp [RestoreOldClipCursor, ClipCursorWrap, RestoreRawInputDevices]
    apply HideCursor_count_nonneg
    simpa using h
  · simp only [SetGuiVisible, SetGuiVisibleForInput]
    simp [SaveCurrentCursorPos, SaveCurrentClipCursor]
    apply ShowCursor_count_nonneg
    simpa using h
  · simpa [SetGuiVisible, SetGuiVisibleForInput, ClearOldCursorPos] using h

theorem hiq_decomp (f : WndProcInputMsg → List WndProcInputMsg) (subs : List Nat) :
    ∀ (rest : List WndProcInputMsg) (n : Nat) (acc : List WndProcInputMsg)
      (evs : List InputEvent),
      HandleInputQueueGo f subs n (rest ++ acc) = some evs →
      ∃ evs2, evs = concatMapList (broadcastRun subs) rest ++ evs2 ∧
        HandleInputQueueGo f subs (n - rest.length) (acc ++ concatMapList f rest) =
          some evs2 := by
  intro rest
  induction rest with
  | nil =>
    intro n acc evs h
    refine ⟨evs, by simp [concatMapList], ?_⟩
    simpa [concatMapList] using h
  | cons m rest ih =>
    intro n acc evs h
    cases n with
    | zero => simp [HandleInputQueueGo] at h
    | succ k =>
      rw [List.cons_append] at h
      simp only [HandleInputQueueGo] at h
      cases hin : HandleInputQueueGo f subs k ((rest ++ acc) ++ f m) with
      | none => rw [hin] at h; simp at h
      | some evs1 =>
        rw [hin] at h
        simp only [Option.some.injEq] at h
        subst h
        rw [List.append_assoc] at hin
        obtain ⟨evs2, rfl, h2⟩ := ih k (acc ++ f m) evs1 hin
        refine ⟨evs2, by simp [concatMapList, List.append_assoc], ?_⟩
        have hlen : k + 1 - (m :: rest).length = k - rest.length := by simp
        rw [hlen]
        have hq : acc ++ concatMapList f (m :: rest) =
            (acc ++ f m) ++ concatMapList f rest := by
          simp [concatMapList, List.append_assoc]
        rw [hq]
        exact h2

/-- Moving the real OS cursor (the environment acting between hook calls). -/
def setOsCursorPos (p : Point) (s : Sys) : Sys :=
  { s with os := { s.os with cursorPos := p } }

/-- C1: starting from a hidden overlay, after SetOverlayVisible(true, false)
every get-cursor-position hook call made while the overlay is visible writes
into its output point the cursor position saved at the false-to-true
transition and reports the call handled, even if the real OS cursor position
has changed in between. -/
theorem claim_C1 (s : Sys) (curBuf movedTo : Point) (_hv0 : s.guiVisible = false) :
    OnGetCursorPos (some curBuf)
        (setOsCursorPos movedTo (SetGuiVisible true false s)) =
      (some s.os.cursorPos, true) := by
  have hv : (setOsCursorPos movedTo (SetGuiVisible true false s)).guiVisible = true := by
    simp [setOsCursorPos, SetGuiVisible_guiVisible]
  have hp : (setOsCursorPos movedTo (SetGuiVisible true false s)).oldCursorPos =
      (true, s.os.cursorPos) := by
    simp [setOsCursorPos, SetGuiVisible_on_oldCursorPos]
  simp [OnGetCursorPos, hv, hp]

theorem claim_C1_witness :
    exSys0.guiVisible = false ∧
      OnGetCursorPos (some ⟨1, 1⟩)
          (setOsCursorPos ⟨9, 9⟩ (SetGuiVisible true false exSys0)) =
        (some exSys0.os.cursorPos, true) :=
  ⟨rfl, claim_C1 exSys0 ⟨1, 1⟩ ⟨9, 9⟩ rfl⟩

/-- C2: the drain HandleInputQueue processes queue entries strictly in FIFO
order, broadcasting each entry exactly once to every registered subscriber
with the exact (window, message, params) tuple pushed, and loops while the
queue is not empty, so the entries pushed during the drain by subscriber
callbacks (concatMapList f q) are drained in the same call; no entry is
lost or duplicated. -/
theorem claim_C2 (f : WndProcInputMsg → List WndProcInputMsg) (subs : List Nat)
    (n : Nat) (q : List WndProcInputMsg) (evs : List InputEvent)
    (h : HandleInputQueueGo f subs n q = some evs) :
    ∃ evs2, evs = concatMapList (broadcastRun subs) q ++ evs2 ∧
      HandleInputQueueGo f subs (n - q.length) (concatMapList f q) = some evs2 := by
  have hd := hiq_decomp f subs q n [] evs
  simp only [List.append_nil, List.nil_append] at hd
  exact hd h

/-- First example queue entry. -/
def exMsg1 : WndProcInputMsg := ⟨1, 1, 1, 1, 1⟩

/-- Second example queue entry, pushed by a subscriber during the drain. -/
def exMsg2 : WndProcInputMsg := ⟨9, 9, 9, 9, 9⟩

/-- Example subscriber side effect: processing exMsg1 pushes exMsg2. -/
def exPush : WndProcInputMsg → List WndProcInputMsg :=
  fun m => if m.msg = 1 then [exMsg2] else []

theorem claim_C2_witness :
    HandleInputQueueGo exPush [0, 1] 2 [exMsg1] =
      some [⟨0, 1, 1, 1, 1⟩, ⟨1, 1, 1, 1, 1⟩, ⟨0, 9, 9, 9, 9⟩, ⟨1, 9, 9, 9, 9⟩] ∧
    ∃ evs2, ([⟨0, 1, 1, 1, 1⟩, ⟨1, 1, 1, 1, 1⟩, ⟨0, 9, 9, 9, 9⟩, ⟨1, 9, 9, 9, 9⟩] :
        List InputEvent) = concatMapList (broadcastRun [0, 1]) [exMsg1] ++ evs2 ∧
      HandleInputQueueGo exPush [0, 1] (2 - [exMsg1].length)
        (concatMapList exPush [exMsg1]) = some evs2 :=
  ⟨by decide, claim_C2 exPush [0, 1] 2 [exMsg1] _ (by decide)⟩

/-- C7: for every starting state, SetOverlayVisible(true, false) followed by
SetOverlayVisible(false, true) with no intervening clip-cursor hook calls is
a round trip on the clip rectangle: the turn-on saves the rectangle before
widening it and the turn-off reapplies the saved rectangle exactly. -/
theorem claim_C7 (s : Sys) :
    (SetGuiVisible false true (SetGuiVisible true false s)).os.clipCursor =
      s.os.clipCursor := by
  rw [SetGuiVisible_off_os_clipCursor, SetGuiVisible_on_oldClipCursor]

/-- C10: every set-cursor hook call, regardless of visibility, updates the
saved-cursor record to the new cursor and flags it saved; the call is
marked handled exactly when the overlay is visible, in which case the
previously recorded cursor is the return value and the return value is
untouched otherwise; consequently the turn-off transition restores the most
recently set cursor. -/
theorem claim_C10 (s : Sys) (c : Nat) :
    (OnSetCursor c s).1.oldCursor = (true, c) ∧
    (OnSetCursor c s).2.1 = s.guiVisible ∧
    (s.guiVisible = true → (OnSetCursor c s).2.2 = some s.oldCursor.2) ∧
    (s.guiVisible = false → (OnSetCursor c s).2.2 = none) ∧
    (SetGuiVisible false true (OnSetCursor c s).1).os.cursor = c := by
  cases hv : s.guiVisible <;>
    simp [OnSetCursor, hv, SetGuiVisible_off_os_cursor]

theorem claim_C10_witness :
    (OnSetCursor 7 exVis).1.oldCursor = (true, 7) ∧
    (OnSetCursor 7 exVis).2.2 = some exVis.oldCursor.2 ∧
    (SetGuiVisible false true (OnSetCursor 7 exVis).1).os.cursor = 7 :=
  ⟨(claim_C10 exVis 7).1, (claim_C10 exVis 7).2.2.1 rfl,
   (claim_C10 exVis 7).2.2.2.2⟩

/-- A concrete hidden-overlay state with a stale raw-input snapshot from a
previous cycle while the OS currently has zero registered devices. -/
def exStale : Sys := { exVis with guiVisible := false }

/-- C3 counterexample: with zero registered OS devices and a stale snapshot
from a previous cycle, a turn-on transition leaves the old snapshot in place
(it is not invalidated or replaced) and after the turn-off transition the
stored snapshot is still not empty — refuting the claim at this input. -/
theorem claim_C3_counterexample :
    exStale.os.registeredDevices = [] ∧
    exStale.oldRawInputDevices = [⟨1, 2, 0, 0⟩] ∧
    (SetGuiVisible true false exStale).oldRawInputDevices = [⟨1, 2, 0, 0⟩] ∧
    (SetGuiVisible false true (SetGuiVisible true false exStale)).oldRawInputDevices =
      [⟨1, 2, 0, 0⟩] := by decide

/-- C3 amended: a turn-on that observes at least one registered device
replaces the snapshot with the current device list; a turn-on that observes
zero devices returns early and leaves the previous snapshot unchanged; the
turn-off restore re-registers the recognised devices of the snapshot but
never clears the stored snapshot. -/
theorem claim_C3_amended (s : Sys) :
    (s.os.registeredDevices ≠ [] →
      (SetRawInputDevices s).oldRawInputDevices = s.os.registeredDevices) ∧
    (s.os.registeredDevices = [] →
      (SetRawInputDevices s).oldRawInputDevices = s.oldRawInputDevices) ∧
    (RestoreRawInputDevices s).oldRawInputDevices = s.oldRawInputDevices ∧
    (RestoreRawInputDevices s).os.registeredDevices =
      restoreDevsList s.oldRawInputDevices s.os.registeredDevices :=
  ⟨SetRawInputDevices_snapshot_replaced s, SetRawInputDevices_snapshot_kept s,
   rfl, rfl⟩

/-- A concrete state with one registered generic-mouse raw input device. -/
def exDevsSys : Sys :=
  { exVis with os := { exVis.os with registeredDevices := [⟨1, 2, 0, 11⟩] } }

theorem claim_C3_amended_witness :
    (SetRawInputDevices exStale).oldRawInputDevices = exStale.oldRawInputDevices ∧
    (SetRawInputDevices exDevsSys).oldRawInputDevices =
      exDevsSys.os.registeredDevices :=
  ⟨(claim_C3_amended exStale).2.1 rfl,
   (claim_C3_amended exDevsSys).1 (by decide)⟩

/-- C4 counterexample: from a quiescent reachable state, the visibility
turn-on loop leaves the show count at 1, and two hide-cursor hook calls
while the overlay owns input drive the stored show count to -1 — below
zero, refuting the claim. -/
theorem claim_C4_counterexample :
    (SetGuiVisible true false exSys0).guiVisible = true ∧
    (SetGuiVisible true false exSys0).showCursorCount = 1 ∧
    ((OnShowCursor false
        ((OnShowCursor false (SetGuiVisible true false exSys0)).1)).1).showCursorCount
      = -1 := by decide

/-- C4 amended: the visibility-transition show/hide loops preserve
non-negativity of the stored show count (HideCursor stops at zero and
ShowCursor only increments), but the show/hide-cursor hook decrements the
count unconditionally while the overlay owns input, so hook calls can drive
the stored count below zero. -/
theorem claim_C4_amended (s : Sys) (v o : Bool) (h : 0 ≤ s.showCursorCount) :
    0 ≤ (SetGuiVisible v o s).showCursorCount ∧
    (s.guiVisible = true →
      (OnShowCursor false s).1.showCursorCount = s.showCursorCount - 1) := by
  refine ⟨SetGuiVisible_count_nonneg v o s h, ?_⟩
  intro hv
  simp [OnShowCursor, hv]

theorem claim_C4_amended_witness :
    (0 : Int) ≤ exVis.showCursorCount ∧
    (0 ≤ (SetGuiVisible true false exVis).showCursorCount ∧
      (exVis.guiVisible = true →
        (OnShowCursor false exVis).1.showCursorCount = exVis.showCursorCount - 1)) :=
  ⟨by decide, claim_C4_amended exVis true false (by decide)⟩

/-- C5: a window-procedure message that is the designated hotkey (shift
held, F9 key-down with the auto-repeat bit clear) toggles overlay
visibility unconditionally — regardless of current visibility, since the
toggle check precedes the block-all-input policy — reports the call
handled, and, because enqueueing happens before either check, any message
pending in the queue at toggle time is still delivered to every subscriber
on the next drain, ahead of the hotkey entry itself. -/
theorem claim_C5 (s : Sys) (hwnd lparam tid : Nat)
    (hrep : (lparam >>> 30) &&& 1 = 0) (hshift : s.os.shiftHeld = true) :
    (WindowProcCallback hwnd WM_KEYDOWN VK_F9 lparam tid s).2 = true ∧
    (WindowProcCallback hwnd WM_KEYDOWN VK_F9 lparam tid s).1.guiVisible =
      !s.guiVisible ∧
    (WindowProcCallback hwnd WM_KEYDOWN VK_F9 lparam tid s).1.queue =
      s.queue ++ [⟨hwnd, WM_KEYDOWN, VK_F9, lparam, tid⟩] ∧
    ∀ (f : WndProcInputMsg → List WndProcInputMsg) (subs : List Nat) (n : Nat)
      (evs : List InputEvent),
      HandleInputQueueGo f subs n
          (WindowProcCallback hwnd WM_KEYDOWN VK_F9 lparam tid s).1.queue =
        some evs →
      ∃ evs2, evs = concatMapList (broadcastRun subs)
          (s.queue ++ [⟨hwnd, WM_KEYDOWN, VK_F9, lparam, tid⟩]) ++ evs2 := by
  have hk : isHotkey WM_KEYDOWN VK_F9 lparam s.os.shiftHeld = true := by
    simp [isHotkey, hrep, hshift]
  have hq : (WindowProcCallback hwnd WM_KEYDOWN VK_F9 lparam tid s).1.queue =
      s.queue ++ [⟨hwnd, WM_KEYDOWN, VK_F9, lparam, tid⟩] := by
    simp [WindowProcCallback, hk, ToggleGuiVisible, SetGuiVisible_queue]
  refine ⟨?_, ?_, hq, ?_⟩
  · simp [WindowProcCallback, hk]
  · simp [WindowProcCallback, hk, ToggleGuiVisible, SetGuiVisible_guiVisible]
  · intro f subs n evs h
    rw [hq] at h
    have hd := hiq_decomp f subs
      (s.queue ++ [⟨hwnd, WM_KEYDOWN, VK_F9, lparam, tid⟩]) n [] evs
    simp only [List.append_nil, List.nil_append] at hd
    obtain ⟨evs2, he, -⟩ := hd h
    exact ⟨evs2, he⟩

theorem claim_C5_witness :
    ((0 : Nat) >>> 30) &&& 1 = 0 ∧ exSys0.os.shiftHeld = true ∧
    ((WindowProcCallback 1 WM_KEYDOWN VK_F9 0 9 exSys0).2 = true ∧
      (WindowProcCallback 1 WM_KEYDOWN VK_F9 0 9 exSys0).1.guiVisible =
        !exSys0.guiVisible ∧
      (WindowProcCallback 1 WM_KEYDOWN VK_F9 0 9 exSys0).1.queue =
        exSys0.queue ++ [⟨1, WM_KEYDOWN, VK_F9, 0, 9⟩] ∧
      ∀ (f : WndProcInputMsg → List WndProcInputMsg) (subs : List Nat) (n : Nat)
        (evs : List InputEvent),
        HandleInputQueueGo f subs n
            (WindowProcCallback 1 WM_KEYDOWN VK_F9 0 9 exSys0).1.queue =
          some evs →
        ∃ evs2, evs = concatMapList (broadcastRun subs)
            (exSys0.queue ++ [⟨1, WM_KEYDOWN, VK_F9, 0, 9⟩]) ++ evs2) :=
  ⟨rfl, rfl, claim_C5 exSys0 1 0 9 rfl rfl⟩

/-- C6 counterexample: with the overlay visible, the get-raw-input-buffer
hook returns (UINT)-1 and handled but leaves the caller's buffer [5, 5]
untouched rather than zeroing it to [0, 0] — refuting the claim that every
raw-input query hook zeroes the caller-supplied output buffer. -/
theorem claim_C6_counterexample :
    exVis.guiVisible = true ∧
    OnGetRawInputBuffer (some [5, 5]) (some 2) exVis =
      (some [5, 5], true, some uintMinus1) ∧
    ZeroMemory [5, 5] 2 = [0, 0] ∧ ([5, 5] : List Nat) ≠ [0, 0] := by decide

/-- C6 amended: while the overlay owns input, the get-raw-input-buffer hook
reports failure (UINT)-1 and handled without touching the caller's buffer;
the get-raw-input-data hook zeroes the caller-supplied buffer (when both
data and size are supplied) and reports (UINT)-1 handled; and the
register-raw-input-devices hook is logged and suppressed, reported handled
with return value FALSE. -/
theorem claim_C6_amended (s : Sys) (buf : List Nat) (n : Nat)
    (devs : List RawInputDevice) (h : s.guiVisible = true) :
    OnGetRawInputBuffer (some buf) (some n) s = (some buf, true, some uintMinus1) ∧
    OnGetRawInputData (some buf) (some n) s =
      (some (ZeroMemory buf n), true, some uintMinus1) ∧
    OnRegisterRawInputDevices (some devs) s = (true, some false) := by
  simp [OnGetRawInputBuffer, OnGetRawInputData, OnRegisterRawInputDevices, h]

theorem claim_C6_amended_witness :
    exVis.guiVisible = true ∧
    (OnGetRawInputBuffer (some [5, 5]) (some 2) exVis =
        (some [5, 5], true, some uintMinus1) ∧
      OnGetRawInputData (some [5, 5]) (some 2) exVis =
        (some (ZeroMemory [5, 5] 2), true, some uintMinus1) ∧
      OnRegisterRawInputDevices (some [⟨1, 2, 0, 0⟩]) exVis = (true, some false)) :=
  ⟨rfl, claim_C6_amended exVis [5, 5] 2 [⟨1, 2, 0, 0⟩] rfl⟩

/-- C8 counterexample: in a visible state with a saved cursor position, a
no-transition call SetOverlayVisible(true, true) clears the saved-position
flag — refuting the claim that the flag is cleared only in the not-visible
case. -/
theorem claim_C8_counterexample :
    exVis.guiVisible = true ∧ exVis.oldCursorPos.1 = true ∧
    (SetGuiVisible true true exVis).oldCursorPos.1 = false := by decide

/-- C8 amended: a no-transition call clears the stale saved-cursor-position
flag without restoring it in BOTH cases (visible and not), and when visible
additionally recomputes and reapplies the clip-rect union of the saved clip
rectangle and the window rectangle; on a real turn-off transition the saved
cursor position is restored only if a position was actually saved (the
restore is skipped, leaving the OS cursor position unchanged, when the
saved flag is false). -/
theorem claim_C8_amended (s : Sys) (v : Bool) :
    (SetGuiVisible v v s).oldCursorPos = (false, ⟨0, 0⟩) ∧
    (SetGuiVisible v v s).os.cursorPos = s.os.cursorPos ∧
    (s.os.windowValid = true → (SetGuiVisible true true s).os.clipCursor =
      rectUnion s.oldClipCursor s.os.windowRect) ∧
    (s.oldCursorPos.1 = false →
      (SetGuiVisible false true s).os.cursorPos = s.os.cursorPos) := by
  refine ⟨SetGuiVisible_notrans_oldCursorPos v s,
    SetGuiVisible_notrans_os_cursorPos v s, ?_, ?_⟩
  · intro hw
    rw [SetGuiVisible_notrans_os_clipCursor, if_pos hw]
  · intro hp
    rw [SetGuiVisible_off_os_cursorPos, if_neg (by simp [hp])]

/-- A concrete visible state whose host window is valid. -/
def exWin : Sys :=
  { exVis with os := { exVis.os with windowValid := true,
                                     windowRect := ⟨-5, -5, 20, 20⟩ } }

theorem claim_C8_amended_witness :
    ((SetGuiVisible true true exSys0).oldCursorPos = (false, ⟨0, 0⟩)) ∧
    (exWin.os.windowValid = true ∧
      (SetGuiVisible true true exWin).os.clipCursor =
        rectUnion exWin.oldClipCursor exWin.os.windowRect) ∧
    (exSys0.oldCursorPos.1 = false ∧
      (SetGuiVisible false true exSys0).os.cursorPos = exSys0.os.cursorPos) :=
  ⟨(claim_C8_amended exSys0 true).1,
   ⟨rfl, (claim_C8_amended exWin true).2.2.1 rfl⟩,
   ⟨rfl, (claim_C8_amended exSys0 true).2.2.2 rfl⟩⟩

/-- C9: the cross-thread input attacher reuses the previous attachment when
the target equals the last-attached thread (no OS actions, state
unchanged); when the target changed and a previous attachment exists, it
first detaches from the previously attached thread and releases its handle,
then attaches to the new target and opens a handle to it, in that order;
and the last-attached state is held per calling thread — entries of other
threads are never modified. -/
theorem claim_C9 (currentTid tid newHandle : Nat) (tls : Nat → AttachState) :
    ((tls currentTid).lastAttachedTid = tid →
      LazyAttachThreadInput currentTid tid newHandle tls = (tls, [])) ∧
    (currentTid ≠ tid → (tls currentTid).lastAttachedTid ≠ tid →
      (tls currentTid).lastAttachedTid ≠ 0 →
      ∀ h, (tls currentTid).lastAttachedThread = some h →
      LazyAttachThreadInput currentTid tid newHandle tls =
        (fun t => if t = currentTid then ⟨tid, some newHandle⟩ else tls t,
         [ThreadAction.attachInput currentTid (tls currentTid).lastAttachedTid false,
          ThreadAction.closeHandle h,
          ThreadAction.attachInput currentTid tid true,
          ThreadAction.openThread tid])) ∧
    (∀ t, t ≠ currentTid →
      (LazyAttachThreadInput currentTid tid newHandle tls).1 t = tls t) := by
  refine ⟨?_, ?_, ?_⟩
  · intro hlast
    simp [LazyAttachThreadInput, hlast]
  · intro h1 h2 h3 h hh
    simp [LazyAttachThreadInput, h1, h2, h3, hh]
  · intro t ht
    simp only [LazyAttachThreadInput]
    split
    · simp [ht]
    · rfl

/-- Example thread-local attachment map: every thread last attached to
thread 2 and holding handle 5 for it. -/
def exTls : Nat → AttachState := fun _ => ⟨2, some 5⟩

theorem claim_C9_witness :
    LazyAttachThreadInput 1 2 7 exTls = (exTls, []) ∧
    LazyAttachThreadInput 1 3 7 exTls =
      (fun t => if t = 1 then ⟨3, some 7⟩ else exTls t,
       [ThreadAction.attachInput 1 2 false, ThreadAction.closeHandle 5,
        ThreadAction.attachInput 1 3 true, ThreadAction.openThread 3]) :=
  ⟨(claim_C9 1 2 7 exTls).1 rfl,
   (claim_C9 1 3 7 exTls).2.1 (by decide) (by decide) (by decide) 5 rfl⟩
